import Mathlib

/- Shallow embedding of the POS cart and checkout workflow of the shop
management app.  The definitions below are translated from `src/testapp.py`
(the POS page, its Add to Cart and Complete Sale handlers, and
`generate_professional_receipt`); `src/app.py` agrees with the modelled
structure on the cart operations, the commit loop and the receipt rate
computation.  Prices and money amounts are modelled as rationals, stock and
quantities as integers (SQL can drive `quantity` negative, so `Int` is used
for stock). -/

namespace ShopPos

/-- A row of the `products` table: `product_id, name, price, quantity`. -/
structure Product where
  product_id : Nat
  name : String
  price : ℚ
  quantity : ℤ
deriving Repr, DecidableEq

/-- A row of the `sales` table as inserted by the Complete Sale handler:
`INSERT INTO sales (product_id, quantity, total_price, customer_id)`. -/
structure SaleRecord where
  product_id : Nat
  quantity : ℤ
  total_price : ℚ
  customer_id : Option Nat
deriving Repr, DecidableEq

/-- The durable state touched by checkout: the `products` table and the
append-only `sales` table. -/
structure Store where
  products : List Product
  sales : List SaleRecord
deriving Repr, DecidableEq

/-- One entry of `st.session_state.cart`: a dict with keys
`product_id, name, price, quantity, total`. -/
structure CartItem where
  product_id : Nat
  name : String
  price : ℚ
  quantity : ℤ
  total : ℚ
deriving Repr, DecidableEq

/-- A row of the `customers` table: id, name, contact number, address. -/
structure Customer where
  customer_id : Nat
  name : String
  contact : Option String
  address : Option String
deriving Repr, DecidableEq

/-- The `customer_data` dict handed to `generate_professional_receipt`.
For the walk-in selection the dict holds only the name, so `contact` and
`address` are `none`. -/
structure CustomerData where
  name : String
  contact : Option String
  address : Option String
deriving Repr, DecidableEq

/-- `UPDATE products SET quantity = quantity - %s WHERE product_id = %s`:
every matching row is decremented, with no stock check of any kind. -/
def updateQuantity (ps : List Product) (q : ℤ) (pid : Nat) : List Product :=
  ps.map fun p => if p.product_id = pid then { p with quantity := p.quantity - q } else p

/-- `INSERT INTO sales (product_id, quantity, total_price, customer_id)
VALUES (%s, %s, %s, %s)`: appends one row to the sales ledger. -/
def insertSale (s : Store) (pid : Nat) (q : ℤ) (tp : ℚ) (cid : Option Nat) : Store :=
  { s with sales := s.sales ++ [⟨pid, q, tp, cid⟩] }

/-- `run_query` wraps every statement in a try/except that displays the
database error and returns `None`: a failing write leaves the store unchanged
and raises nothing to the caller, so callers cannot observe the failure. -/
def runWrite (fails : Bool) (w : Store → Store) (s : Store) : Store :=
  if fails then s else w s

/-- Add to Cart handler: look for the first cart line with the selected
product's id; if found, add the chosen quantity to it and recompute
`total = quantity * price` using the price snapshot already stored in the
line; otherwise append a fresh line snapshotting the product's current name
and price. -/
def addToCart (cart : List CartItem) (p : Product) (qty : ℤ) : List CartItem :=
  match cart with
  | [] => [⟨p.product_id, p.name, p.price, qty, (qty : ℚ) * p.price⟩]
  | item :: rest =>
    if item.product_id = p.product_id then
      ⟨item.product_id, item.name, item.price, item.quantity + qty,
        ((item.quantity + qty : ℤ) : ℚ) * item.price⟩ :: rest
    else
      item :: addToCart rest p qty

/-- A sequence of Add to Cart clicks folded over the session cart. -/
def foldAdds (adds : List (Product × ℤ)) (cart : List CartItem) : List CartItem :=
  adds.foldl (fun c pq => addToCart c pq.1 pq.2) cart

/-- The commit loop of the Complete Sale handler: for each cart item, in cart
order, issue the inventory `UPDATE` and then the `INSERT INTO sales`, each
through `run_query`.  The writes of one checkout are numbered from `i`
upward and `failAt` says which of them raise inside `run_query`; since
`run_query` swallows the exception, the loop itself never stops early. -/
def commitFrom (failAt : Nat → Bool) (cid : Option Nat) :
    Nat → Store → List CartItem → Store
  | _, s, [] => s
  | i, s, item :: rest =>
    let s1 := runWrite (failAt i)
      (fun st => { st with products := updateQuantity st.products item.quantity item.product_id }) s
    let s2 := runWrite (failAt (i + 1))
      (fun st => insertSale st item.product_id item.quantity item.total cid) s1
    commitFrom failAt cid (i + 2) s2 rest

/-- The commit loop with its writes numbered from 0. -/
def commitLoop (failAt : Nat → Bool) (cid : Option Nat) (s : Store) (cart : List CartItem) : Store :=
  commitFrom failAt cid 0 s cart

/-- The failure-free database environment. -/
def noFail : Nat → Bool := fun _ => false

/-- Whether and where the receipt part of the Complete Sale handler raises:
`genFails` models the `generate_professional_receipt` call raising (caught by
the outer handler, which reports "Sale processing failed"), `readFails`
models only the later receipt-file read raising (caught by the inner handler,
which warns "Receipt generation had an issue, but sale was successful"),
`ok` models both succeeding. -/
inductive ReceiptStep where
  | genFails
  | readFails
  | ok
deriving Repr, DecidableEq

/-- What the user is told at the end of the Complete Sale handler. -/
inductive SaleOutcome where
  | success
  | receiptWarning
  | saleError
deriving Repr, DecidableEq

/-- Complete Sale handler (testapp.py lines 895-948): run the commit loop over
the whole cart, then generate the receipt.  If `generate_professional_receipt`
raises, control jumps to the outer `except` and the cart clear at line 943 is
skipped, so the cart survives; if only the receipt-file read raises, the inner
`except` warns and the cart is still cleared; on success the cart is cleared.
The committed store is never rolled back in any of the three cases. -/
def completeSale (failAt : Nat → Bool) (rstep : ReceiptStep) (s : Store)
    (cart : List CartItem) (cid : Option Nat) : Store × List CartItem × SaleOutcome :=
  let s' := commitLoop failAt cid s cart
  match rstep with
  | .genFails => (s', cart, .saleError)
  | .readFails => (s', [], .receiptWarning)
  | .ok => (s', [], .success)

/-- Result of the POS shopping-cart section. -/
inductive PosResult where
  | emptyCartInfo
  | completed (o : SaleOutcome)
deriving Repr, DecidableEq

/-- The POS shopping-cart section (testapp.py lines 837 and 967-968): with an
empty cart only the message "Cart is empty. Add products to get started!" is
rendered and no handler can run; with a non-empty cart the Complete Sale
handler is available. -/
def posCartSection (failAt : Nat → Bool) (rstep : ReceiptStep) (s : Store)
    (cart : List CartItem) (cid : Option Nat) : Store × List CartItem × PosResult :=
  if cart.isEmpty then (s, cart, .emptyCartInfo)
  else
    let r := completeSale failAt rstep s cart cid
    (r.1, r.2.1, .completed r.2.2)

/-- Python `list.pop(idx)` for a non-negative index: returns the list without
the idx-th element, or raises "IndexError: pop index out of range". -/
def listPop : List CartItem → Nat → Except String (List CartItem)
  | [], _ => .error "pop index out of range"
  | _ :: rest, 0 => .ok rest
  | item :: rest, n + 1 =>
    match listPop rest n with
    | .ok r => .ok (item :: r)
    | .error e => .error e

/-- The remove-button handler: `st.session_state.cart.pop(idx)`.  An
`IndexError` escapes before any mutation, so the session cart is unchanged
when it is raised. -/
def removeHandler (cart : List CartItem) (idx : Nat) : List CartItem × Option String :=
  match listPop cart idx with
  | .ok c => (c, none)
  | .error e => (cart, some e)

/-- POS customer selection (testapp.py lines 858-884): choosing
"Walk-in Customer" yields `selected_customer_id = None` and a `customer_data`
dict holding only the name "Walk-in Customer"; choosing a registered customer
yields that id plus the row's name, contact and address when the row is found,
and `customer_data = None` otherwise. -/
def selectCustomer (customers : List Customer) (choice : Option Nat) :
    Option Nat × Option CustomerData :=
  match choice with
  | none => (none, some ⟨"Walk-in Customer", none, none⟩)
  | some cid =>
    match customers.find? fun c => c.customer_id = cid with
    | some c => (some cid, some ⟨c.name, c.contact, c.address⟩)
    | none => (some cid, none)

/-- One step of the greedy address-wrapping loop in
`generate_professional_receipt`: extend the current line when the candidate
stays within 60 characters, otherwise flush it and start over with the word. -/
def addressWrapStep (acc : List String × String) (word : String) : List String × String :=
  if (acc.2 ++ " " ++ word).length ≤ 60 then
    (acc.1, if acc.2 = "" then word else acc.2 ++ " " ++ word)
  else
    (if acc.2 = "" then acc.1 else acc.1 ++ [acc.2], word)

/-- The wrapped address lines: split the address on whitespace and wrap
greedily at 60 characters, as in `generate_professional_receipt`. -/
def addressLines (addr : String) : List String :=
  let r := ((addr.split fun c => c.isWhitespace).filter fun w => w ≠ "").foldl
    addressWrapStep ([], "")
  if r.2 = "" then r.1 else r.1 ++ [r.2]

/-- The customer-details lines drawn on the receipt
(`generate_professional_receipt`, testapp.py lines 164-217).  Both the
missing-dict case and the walk-in dict render the fixed placeholder lines. -/
def customerSection : Option CustomerData → List String
  | none => ["Customer: Walk-in Customer", "Contact: -", "Address: -"]
  | some cd =>
    if cd.name = "Walk-in Customer" then
      ["Customer: Walk-in Customer", "Contact: -", "Address: -"]
    else
      let contact := match cd.contact with
        | some c => if c = "" then "-" else c
        | none => "-"
      let address := match cd.address with
        | some a => if a = "" then "-" else a
        | none => "-"
      ["Customer: " ++ cd.name, "Contact: " ++ contact] ++
        (if 60 < address.length then
          ("Address: " ++ (addressLines address).headD "-") ::
            ((addressLines address).drop 1).map (fun l => "         " ++ l)
        else
          ["Address: " ++ address])

/-- Per-line rate in the receipt's items table:
`rate = amount / quantity if quantity > 0 else amount`. -/
def lineRate (amount : ℚ) (quantity : ℤ) : ℚ :=
  if 0 < quantity then amount / (quantity : ℚ) else amount

/-- The rates of all receipt item lines, one per `(name, quantity, amount)`
tuple, in order. -/
def receiptLineRates (items : List (String × ℤ × ℚ)) : List ℚ :=
  items.map fun it => lineRate it.2.2 it.2.1

/-- `receipt_items = [(item['name'], item['quantity'], item['total'])
for item in st.session_state.cart]`. -/
def receiptItems (cart : List CartItem) : List (String × ℤ × ℚ) :=
  cart.map fun item => (item.name, item.quantity, item.total)

/-- One user session's POS state: the durable store plus the session cart. -/
structure PosState where
  store : Store
  cart : List CartItem
deriving Repr, DecidableEq

/-- The user-reachable POS transitions.  `add` carries the UI guards of the
page: the selected product is a current row of the products table, the page
lists only rows with `quantity > 0`, and the quantity input is clamped to
`1 ≤ qty ≤ max_qty` where `max_qty` is the row's current stock.  `checkout`
is the Complete Sale handler in a failure-free database environment. -/
inductive PosStep : PosState → PosState → Prop where
  | add (σ : PosState) (p : Product) (qty : ℤ) (hp : p ∈ σ.store.products)
      (hstock : 0 < p.quantity) (hlo : 1 ≤ qty) (hhi : qty ≤ p.quantity) :
      PosStep σ ⟨σ.store, addToCart σ.cart p qty⟩
  | removeLine (σ : PosState) (idx : Nat) :
      PosStep σ ⟨σ.store, (removeHandler σ.cart idx).1⟩
  | clearCart (σ : PosState) :
      PosStep σ ⟨σ.store, []⟩
  | checkout (σ : PosState) (rstep : ReceiptStep) (cid : Option Nat) (hne : σ.cart ≠ []) :
      PosStep σ ⟨(completeSale noFail rstep σ.store σ.cart cid).1,
                 (completeSale noFail rstep σ.store σ.cart cid).2.1⟩

/-- A products-table row holding one watch with five units on hand. -/
def watchRow : Product := ⟨1, "Watch", 100, 5⟩

/-- Initial POS state for the overselling trace: one product with
`quantity_on_hand = 5` and an empty session cart. -/
def posInit : PosState := ⟨⟨[watchRow], []⟩, []⟩

/-- Store for the write-failure scenario: two products in stock. -/
def storeAB : Store := ⟨[⟨1, "A", 100, 5⟩, ⟨2, "B", 50, 5⟩], []⟩

/-- Cart for the write-failure scenario: one unit of each product. -/
def cartAB : List CartItem := [⟨1, "A", 100, 1, 100⟩, ⟨2, "B", 50, 1, 50⟩]

/-- A database environment in which exactly the first write of the checkout
(the inventory decrement of the first cart line) fails. -/
def failFirst : Nat → Bool := fun i => i == 0

theorem runWrite_update_sales (b : Bool) (q : ℤ) (pid : Nat) (s : Store) :
    (runWrite b
      (fun st => { st with products := updateQuantity st.products q pid }) s).sales = s.sales := by
  cases b <;> rfl

theorem runWrite_insert_sales (b : Bool) (pid : Nat) (q : ℤ) (tp : ℚ) (cid : Option Nat)
    (s : Store) :
    (runWrite b (fun st => insertSale st pid q tp cid) s).sales
      = s.sales ++ (if b then [] else [⟨pid, q, tp, cid⟩]) := by
  cases b <;> simp [runWrite, insertSale]

theorem commitFrom_sales (failAt : Nat → Bool) (cid : Option Nat) (cart : List CartItem) :
    ∀ (i : Nat) (s : Store),
      ∃ t, (commitFrom failAt cid i s cart).sales = s.sales ++ t ∧
        ∀ r ∈ t, r.customer_id = cid := by
  induction cart with
  | nil => exact fun i s => ⟨[], by simp [commitFrom], by simp⟩
  | cons item rest ih =>
    intro i s
    obtain ⟨t, ht, hcid⟩ := ih (i + 2)
      (runWrite (failAt (i + 1))
        (fun st => insertSale st item.product_id item.quantity item.total cid)
        (runWrite (failAt i)
          (fun st => { st with products := updateQuantity st.products item.quantity item.product_id })
          s))
    refine ⟨(if failAt (i + 1) then []
        else [⟨item.product_id, item.quantity, item.total, cid⟩]) ++ t, ?_, ?_⟩
    · show (commitFrom failAt cid (i + 2) _ rest).sales = _
      rw [ht, runWrite_insert_sales, runWrite_update_sales, List.append_assoc]
    · intro r hr
      rcases List.mem_append.mp hr with h | h
      · by_cases hb : failAt (i + 1)
        · simp [hb] at h
        · simp [hb] at h
          subst h
          rfl
      · exact hcid r h

theorem commitFrom_mem (failAt : Nat → Bool) (cid : Option Nat) (cart : List CartItem) :
    ∀ (i : Nat) (s : Store) (j : Nat) (hj : j < cart.length),
      failAt (i + (2 * j + 1)) = false →
      (⟨(cart.get ⟨j, hj⟩).product_id, (cart.get ⟨j, hj⟩).quantity,
        (cart.get ⟨j, hj⟩).total, cid⟩ : SaleRecord) ∈ (commitFrom failAt cid i s cart).sales := by
  induction cart with
  | nil => exact fun i s j hj => absurd hj (by simp)
  | cons item rest ih =>
    intro i s j hj hfail
    cases j with
    | zero =>
      have hfail1 : failAt (i + 1) = false := by simpa using hfail
      obtain ⟨t, ht, _⟩ := commitFrom_sales failAt cid rest (i + 2)
        (runWrite (failAt (i + 1))
          (fun st => insertSale st item.product_id item.quantity item.total cid)
          (runWrite (failAt i)
            (fun st => { st with products := updateQuantity st.products item.quantity item.product_id })
            s))
      show _ ∈ (commitFrom failAt cid (i + 2) _ rest).sales
      rw [ht, runWrite_insert_sales, runWrite_update_sales, hfail1]
      simp
    | succ j0 =>
      have hfail2 : failAt ((i + 2) + (2 * j0 + 1)) = false := by
        have harith : (i + 2) + (2 * j0 + 1) = i + (2 * (j0 + 1) + 1) := by ring
        rw [harith]
        exact hfail
      exact ih (i + 2) _ j0 (by simpa using hj) hfail2

theorem commitFrom_sales_noFail (cid : Option Nat) (cart : List CartItem) :
    ∀ (i : Nat) (s : Store),
      (commitFrom noFail cid i s cart).sales =
        s.sales ++ cart.map fun item =>
          (⟨item.product_id, item.quantity, item.total, cid⟩ : SaleRecord) := by
  induction cart with
  | nil => intro i s; simp [commitFrom]
  | cons item rest ih =>
    intro i s
    have h := ih (i + 2)
      (runWrite (noFail (i + 1))
        (fun st => insertSale st item.product_id item.quantity item.total cid)
        (runWrite (noFail i)
          (fun st => { st with products := updateQuantity st.products item.quantity item.product_id })
          s))
    show (commitFrom noFail cid (i + 2) _ rest).sales = _
    rw [h]
    simp [runWrite, insertSale, noFail]

theorem commitFrom_products_noFail (cid : Option Nat) (cart : List CartItem) :
    ∀ (i : Nat) (s : Store),
      (commitFrom noFail cid i s cart).products =
        cart.foldl (fun acc item => updateQuantity acc item.quantity item.product_id) s.products := by
  induction cart with
  | nil => intro i s; rfl
  | cons item rest ih =>
    intro i s
    have h := ih (i + 2)
      (runWrite (noFail (i + 1))
        (fun st => insertSale st item.product_id item.quantity item.total cid)
        (runWrite (noFail i)
          (fun st => { st with products := updateQuantity st.products item.quantity item.product_id })
          s))
    show (commitFrom noFail cid (i + 2) _ rest).products = _
    rw [h]
    rfl

theorem foldUpdates_eq (cart : List CartItem) :
    ∀ ps : List Product,
      cart.foldl (fun acc item => updateQuantity acc item.quantity item.product_id) ps =
        ps.map fun p =>
          { p with quantity := p.quantity -
              (cart.map fun it => if it.product_id = p.product_id then it.quantity else 0).sum } := by
  induction cart with
  | nil =>
    intro ps
    simp only [List.foldl_nil, List.map_nil, List.sum_nil, sub_zero]
    induction ps with
    | nil => rfl
    | cons p rest ihp =>
      simp only [List.map_cons]
      rw [← ihp]
  | cons item rest ih =>
    intro ps
    simp only [List.foldl_cons]
    rw [ih]
    simp only [updateQuantity, List.map_map]
    have hfun : ((fun p : Product =>
          { p with quantity := p.quantity -
              (rest.map fun it : CartItem =>
                if it.product_id = p.product_id then it.quantity else 0).sum }) ∘
        (fun p : Product => if p.product_id = item.product_id
          then { p with quantity := p.quantity - item.quantity } else p)) =
        fun p : Product =>
          { p with quantity := p.quantity -
              ((item :: rest).map fun it : CartItem =>
                if it.product_id = p.product_id then it.quantity else 0).sum } := by
      funext p
      by_cases hp : p.product_id = item.product_id
      · simp [Function.comp, hp, sub_sub]
      · have hp2 : ¬ item.product_id = p.product_id := fun hc => hp hc.symm
        simp [Function.comp, hp, hp2]
    rw [hfun]

/-- C1, counterexample: with one product at `quantity_on_hand = 5` and a cart
line requesting 6 (built by two Add to Cart clicks of 5 and 1, each within the
stock cap), Complete Sale does not return any insufficient-stock rejection and
does not leave stock unchanged: it decrements the quantity to -1, appends a
sale record, and reports success.  This refutes the claim that checkout
re-validates stock and aborts with zero writes. -/
theorem c1_no_insufficient_stock_check :
    posCartSection noFail .ok ⟨[⟨1, "Watch", 100, 5⟩], []⟩
        (addToCart (addToCart [] ⟨1, "Watch", 100, 5⟩ 5) ⟨1, "Watch", 100, 5⟩ 1) none =
      (⟨[⟨1, "Watch", 100, -1⟩], [⟨1, 6, 600, none⟩]⟩, [], .completed .success) := by
  norm_num [posCartSection, completeSale, commitLoop, commitFrom, runWrite, noFail,
    insertSale, updateQuantity, addToCart]

/-- C1, amended: checkout performs no stock validation at all.  For every
store, every non-empty cart and every customer selection, Complete Sale is
exactly the commit loop followed by success with a cleared cart: the ledger
receives exactly one appended row per cart line, in cart order, carrying that
line's quantity and total, and every product row's `quantity_on_hand` is
decremented by the total quantity requested for its id across the cart —
unconditionally, with no comparison of requested against available stock and
no insufficient-stock result anywhere. -/
theorem c1_unconditional_commit (s : Store) (cart : List CartItem) (cid : Option Nat)
    (hne : cart ≠ []) :
    posCartSection noFail .ok s cart cid =
      (commitLoop noFail cid s cart, [], .completed .success) ∧
    (commitLoop noFail cid s cart).products =
      (s.products.map fun p =>
        { p with quantity := p.quantity -
            (cart.map fun it => if it.product_id = p.product_id then it.quantity else 0).sum }) ∧
    (commitLoop noFail cid s cart).sales =
      s.sales ++ cart.map fun item =>
        (⟨item.product_id, item.quantity, item.total, cid⟩ : SaleRecord) := by
  refine ⟨?_, ?_, commitFrom_sales_noFail cid cart 0 s⟩
  · cases cart with
    | nil => exact absurd rfl hne
    | cons a l => rfl
  · exact (commitFrom_products_noFail cid cart 0 s).trans (foldUpdates_eq cart s.products)

/-- C1, witness for the amended claim: the amended theorem applied at the
oversold input (stock 5, requested 6): checkout is the bare commit loop, the
product is decremented to -1, and the single ledger row is appended. -/
theorem c1_unconditional_commit_applied :
    posCartSection noFail .ok ⟨[⟨1, "Watch", 100, 5⟩], []⟩ [⟨1, "Watch", 100, 6, 600⟩] none =
      (commitLoop noFail none ⟨[⟨1, "Watch", 100, 5⟩], []⟩ [⟨1, "Watch", 100, 6, 600⟩],
        [], .completed .success) ∧
    (commitLoop noFail none ⟨[⟨1, "Watch", 100, 5⟩], []⟩ [⟨1, "Watch", 100, 6, 600⟩]).products =
      [⟨1, "Watch", 100, -1⟩] ∧
    (commitLoop noFail none ⟨[⟨1, "Watch", 100, 5⟩], []⟩ [⟨1, "Watch", 100, 6, 600⟩]).sales =
      [⟨1, 6, 600, none⟩] := by
  have h := c1_unconditional_commit ⟨[⟨1, "Watch", 100, 5⟩], []⟩
    [⟨1, "Watch", 100, 6, 600⟩] none (by decide)
  refine ⟨h.1, ?_, ?_⟩
  · rw [h.2.1]
    decide
  · rw [h.2.2]
    decide

/-- C2: the non-negativity invariant for `quantity_on_hand` fails on the code.
From a store holding one product with 5 units and an empty cart there is a
reachable trace — Add to Cart 3, Add to Cart 3 (both within the stock cap,
merged into one line of 6), then Complete Sale — after which the product's
`quantity_on_hand` is negative. -/
theorem c2_stock_goes_negative :
    ∃ σ : PosState, Relation.ReflTransGen PosStep posInit σ ∧
      ∃ p ∈ σ.store.products, p.quantity < 0 := by
  refine ⟨⟨(completeSale noFail .ok posInit.store
              (addToCart (addToCart [] watchRow 3) watchRow 3) none).1,
            (completeSale noFail .ok posInit.store
              (addToCart (addToCart [] watchRow 3) watchRow 3) none).2.1⟩,
    ?_, ⟨1, "Watch", 100, -1⟩, by decide, by decide⟩
  have h1 : PosStep posInit ⟨posInit.store, addToCart [] watchRow 3⟩ :=
    PosStep.add posInit watchRow 3 (by decide) (by decide) (by decide) (by decide)
  have h2 : PosStep ⟨posInit.store, addToCart [] watchRow 3⟩
      ⟨posInit.store, addToCart (addToCart [] watchRow 3) watchRow 3⟩ :=
    PosStep.add ⟨posInit.store, addToCart [] watchRow 3⟩ watchRow 3
      (by decide) (by decide) (by decide) (by decide)
  have h3 : PosStep ⟨posInit.store, addToCart (addToCart [] watchRow 3) watchRow 3⟩
      ⟨(completeSale noFail .ok posInit.store
          (addToCart (addToCart [] watchRow 3) watchRow 3) none).1,
        (completeSale noFail .ok posInit.store
          (addToCart (addToCart [] watchRow 3) watchRow 3) none).2.1⟩ :=
    PosStep.checkout ⟨posInit.store, addToCart (addToCart [] watchRow 3) watchRow 3⟩
      .ok none (by decide)
  exact Relation.ReflTransGen.head h1
    (Relation.ReflTransGen.head h2
      (Relation.ReflTransGen.head h3 Relation.ReflTransGen.refl))

/-- C3, counterexample: with two in-stock products, a two-line cart and an
environment where exactly the first write (line 1's inventory decrement)
fails, the checkout does not stop at the failing write: line 1's ledger append
and both of line 2's writes are still performed, and the handler reports plain
success (cart cleared), not any partial-failure result naming the succeeded
lines. -/
theorem c3_failed_write_not_stopping :
    posCartSection failFirst .ok storeAB cartAB none =
      (⟨[⟨1, "A", 100, 5⟩, ⟨2, "B", 50, 4⟩], [⟨1, 1, 100, none⟩, ⟨2, 1, 50, none⟩]⟩,
        [], .completed .success) := by
  decide

/-- C3, amended: when a store write fails during the commit loop, `run_query`
swallows the exception and leaves that single write unapplied, but the loop
continues through every remaining line: the sales ledger is only ever appended
to (earlier commits remain), every line whose own append write succeeds gets
its ledger row regardless of earlier failures, and the checkout finishes as an
ordinary success with the cart cleared — no partial-failure report exists. -/
theorem c3_checkout_continues (failAt : Nat → Bool) (cid : Option Nat) (s : Store)
    (cart : List CartItem) :
    (∃ appended, (commitLoop failAt cid s cart).sales = s.sales ++ appended) ∧
    (∀ (j : Nat) (hj : j < cart.length), failAt (2 * j + 1) = false →
      (⟨(cart.get ⟨j, hj⟩).product_id, (cart.get ⟨j, hj⟩).quantity,
        (cart.get ⟨j, hj⟩).total, cid⟩ : SaleRecord) ∈ (commitLoop failAt cid s cart).sales) ∧
    (cart ≠ [] →
      (posCartSection failAt .ok s cart cid).2.1 = [] ∧
      (posCartSection failAt .ok s cart cid).2.2 = .completed .success) := by
  refine ⟨?_, ?_, ?_⟩
  · obtain ⟨t, ht, _⟩ := commitFrom_sales failAt cid cart 0 s
    exact ⟨t, ht⟩
  · intro j hj hfail
    have h0 : failAt (0 + (2 * j + 1)) = false := by simpa using hfail
    exact commitFrom_mem failAt cid cart 0 s j hj h0
  · intro hne
    have hbool : cart.isEmpty = false := by
      cases cart with
      | nil => exact absurd rfl hne
      | cons a l => rfl
    cases cart with
    | nil => exact absurd rfl hne
    | cons a l => exact ⟨rfl, rfl⟩

/-- C3, witness: the amended theorem applied at the concrete write-failure
scenario — line 2's ledger row is present even though the checkout's first
write failed, and the handler reports success. -/
theorem c3_checkout_continues_applied :
    (⟨2, 1, 50, none⟩ : SaleRecord) ∈ (commitLoop failFirst none storeAB cartAB).sales ∧
    (posCartSection failFirst .ok storeAB cartAB none).2.2 = .completed .success := by
  have h := c3_checkout_continues failFirst none storeAB cartAB
  exact ⟨h.2.1 1 (by decide) (by decide), (h.2.2 (by decide)).2⟩

/-- C4, counterexample: when `generate_professional_receipt` raises after the
commit loop, the committed writes stay (store shows the decrement and the
ledger row) but the cart is NOT cleared — it still holds the sold line —
contradicting the claim that the cart is still cleared on a receipt failure. -/
theorem c4_cart_kept_on_receipt_failure :
    (completeSale noFail .genFails ⟨[⟨1, "A", 100, 5⟩], []⟩ [⟨1, "A", 100, 2, 200⟩] none).2.1 =
      [⟨1, "A", 100, 2, 200⟩] ∧
    (completeSale noFail .genFails ⟨[⟨1, "A", 100, 5⟩], []⟩ [⟨1, "A", 100, 2, 200⟩] none).1 =
      ⟨[⟨1, "A", 100, 3⟩], [⟨1, 2, 200, none⟩]⟩ := by
  decide

/-- C4, amended: once the commit loop has completed, a receipt failure rolls
nothing back — the committed store is exactly the commit-loop result and the
ledger is only appended to — but the cart reset depends on where the failure
happens: when `generate_professional_receipt` itself raises, the outer handler
reports "Sale processing failed" and the cart is NOT cleared; the cart is
cleared exactly when receipt generation succeeds, including when only the
later receipt-file read fails. -/
theorem c4_receipt_failure_final (failAt : Nat → Bool) (s : Store) (cart : List CartItem)
    (cid : Option Nat) :
    (completeSale failAt .genFails s cart cid).2.1 = cart ∧
    (completeSale failAt .genFails s cart cid).1 = commitLoop failAt cid s cart ∧
    (∃ appended, (completeSale failAt .genFails s cart cid).1.sales = s.sales ++ appended) ∧
    (completeSale failAt .readFails s cart cid).2.1 = [] ∧
    (completeSale failAt .ok s cart cid).2.1 = [] ∧
    (completeSale failAt .readFails s cart cid).1 = commitLoop failAt cid s cart := by
  refine ⟨rfl, rfl, ?_, rfl, rfl, rfl⟩
  obtain ⟨t, ht, _⟩ := commitFrom_sales failAt cid cart 0 s
  exact ⟨t, ht⟩

/-- C5: for a store holding one product with `quantity_on_hand = 5` and a cart
holding the single line produced by adding 3 units of that product, a
successful Complete Sale leaves the product's quantity at 2, appends exactly
one sales-ledger record with quantity 3 and `total_price` equal to the line
total `3 * unit_price`, and clears the cart. -/
theorem c5_successful_checkout (p : Product) (sales0 : List SaleRecord) (cid : Option Nat)
    (hq : p.quantity = 5) :
    posCartSection noFail .ok ⟨[p], sales0⟩ (addToCart [] p 3) cid =
      (⟨[{ p with quantity := 2 }],
          sales0 ++ [⟨p.product_id, 3, ((3 : ℤ) : ℚ) * p.price, cid⟩]⟩,
        [], .completed .success) := by
  simp [posCartSection, completeSale, commitLoop, commitFrom, runWrite, noFail,
    insertSale, updateQuantity, addToCart, hq]

/-- C5, witness: the theorem applied at a concrete product priced 100,
showing quantity 5 becoming 2, one ledger row with quantity 3 and total 300,
and the cleared cart. -/
theorem c5_successful_checkout_applied :
    posCartSection noFail .ok ⟨[⟨1, "Watch", 100, 5⟩], []⟩
        (addToCart [] ⟨1, "Watch", 100, 5⟩ 3) none =
      (⟨[⟨1, "Watch", 100, 2⟩], [⟨1, 3, 300, none⟩]⟩, [], .completed .success) := by
  have h := c5_successful_checkout ⟨1, "Watch", 100, 5⟩ [] none rfl
  have h300 : ((3 : ℤ) : ℚ) * (100 : ℚ) = 300 := by norm_num
  rw [show (⟨1, "Watch", 100, 5⟩ : Product).price = (100 : ℚ) from rfl, h300] at h
  exact h

theorem foldAdds_merged (pid : Nat) (nm : String) (pr : ℚ) (adds : List (Product × ℤ)) :
    ∀ (quant : ℤ), (∀ pq ∈ adds, pq.1.product_id = pid) →
      foldAdds adds [⟨pid, nm, pr, quant, (quant : ℚ) * pr⟩] =
        [⟨pid, nm, pr, quant + (adds.map fun pq => pq.2).sum,
          ((quant + (adds.map fun pq => pq.2).sum : ℤ) : ℚ) * pr⟩] := by
  induction adds with
  | nil => intro quant _; simp [foldAdds]
  | cons pq rest ih =>
    intro quant h
    have hpid : pq.1.product_id = pid := h pq (by simp)
    have hstep : addToCart [⟨pid, nm, pr, quant, (quant : ℚ) * pr⟩] pq.1 pq.2 =
        [⟨pid, nm, pr, quant + pq.2, ((quant + pq.2 : ℤ) : ℚ) * pr⟩] := by
      simp [addToCart, hpid]
    have hfold : foldAdds (pq :: rest) [⟨pid, nm, pr, quant, (quant : ℚ) * pr⟩] =
        foldAdds rest (addToCart [⟨pid, nm, pr, quant, (quant : ℚ) * pr⟩] pq.1 pq.2) := rfl
    rw [hfold, hstep, ih (quant + pq.2) (fun x hx => h x (by simp [hx]))]
    simp only [List.map_cons, List.sum_cons, add_assoc]

/-- C6: folding any non-empty sequence of Add to Cart clicks for the same
`product_id` (each with quantity at least 1) over the empty cart yields
exactly one cart line for that product: its quantity is the sum of all added
quantities and its `total` is that sum times the unit price snapshotted at the
first add (later adds reuse the stored snapshot, never re-reading a price). -/
theorem c6_add_merges (pid : Nat) (a : Product × ℤ) (rest : List (Product × ℤ))
    (hpid : ∀ pq ∈ a :: rest, pq.1.product_id = pid)
    (_hq : ∀ pq ∈ a :: rest, 1 ≤ pq.2) :
    foldAdds (a :: rest) [] =
      [⟨pid, a.1.name, a.1.price, ((a :: rest).map fun pq => pq.2).sum,
        ((((a :: rest).map fun pq => pq.2).sum : ℤ) : ℚ) * a.1.price⟩] := by
  have ha : a.1.product_id = pid := hpid a (by simp)
  have h0 : foldAdds (a :: rest) [] = foldAdds rest (addToCart [] a.1 a.2) := rfl
  have h1 : addToCart [] a.1 a.2 =
      [⟨pid, a.1.name, a.1.price, a.2, (a.2 : ℚ) * a.1.price⟩] := by
    simp [addToCart, ha]
  rw [h0, h1, foldAdds_merged pid a.1.name a.1.price rest a.2
    (fun x hx => hpid x (by simp [hx]))]
  simp only [List.map_cons, List.sum_cons]

/-- C6, witness: adding the same product twice (2 units, then 3 units) yields
one merged line with quantity 5 and total `5 * 100`. -/
theorem c6_add_merges_applied :
    foldAdds [(⟨1, "Watch", 100, 5⟩, 2), (⟨1, "Watch", 100, 5⟩, 3)] [] =
      [⟨1, "Watch", 100, 5, ((5 : ℤ) : ℚ) * 100⟩] := by
  have h := c6_add_merges 1 (⟨1, "Watch", 100, 5⟩, 2) [(⟨1, "Watch", 100, 5⟩, 3)]
    (by decide) (by decide)
  exact h

/-- C7: a checkout attempt on an empty cart is rejected — the POS cart section
only renders the empty-cart message, no Complete Sale handler runs — and the
store (both the products table and the sales ledger) is left entirely
unchanged, in every database and receipt environment. -/
theorem c7_empty_cart_rejected (failAt : Nat → Bool) (rstep : ReceiptStep) (s : Store)
    (cid : Option Nat) (cart : List CartItem) (h : cart = []) :
    posCartSection failAt rstep s cart cid = (s, cart, .emptyCartInfo) := by
  subst h
  rfl

/-- C7, witness: the theorem applied to an empty cart with a concrete store,
an always-failing write environment and a failing receipt step: the result is
the empty-cart rejection and the untouched store. -/
theorem c7_empty_cart_rejected_applied :
    posCartSection (fun _ => true) .genFails ⟨[⟨1, "Watch", 100, 5⟩], []⟩ [] none =
      (⟨[⟨1, "Watch", 100, 5⟩], []⟩, [], .emptyCartInfo) :=
  c7_empty_cart_rejected (fun _ => true) .genFails ⟨[⟨1, "Watch", 100, 5⟩], []⟩ none [] rfl

/-- C8: choosing "Walk-in Customer" selects `selected_customer_id = None` and
a customer dict with empty contact and address fields; every sales-ledger row
appended by the checkout then carries `customer_id = None`, and the receipt
renders "Walk-in Customer" with the empty "-" placeholders for contact and
address. -/
theorem c8_walk_in_customer (customers : List Customer) (failAt : Nat → Bool)
    (rstep : ReceiptStep) (s : Store) (cart : List CartItem) :
    (selectCustomer customers none).1 = none ∧
    (selectCustomer customers none).2 = some ⟨"Walk-in Customer", none, none⟩ ∧
    (∃ appended, (posCartSection failAt rstep s cart none).1.sales = s.sales ++ appended ∧
      ∀ r ∈ appended, r.customer_id = none) ∧
    customerSection (selectCustomer customers none).2 =
      ["Customer: Walk-in Customer", "Contact: -", "Address: -"] := by
  refine ⟨rfl, rfl, ?_, by simp [selectCustomer, customerSection]⟩
  cases cart with
  | nil => exact ⟨[], by simp [posCartSection], by simp⟩
  | cons a l =>
    obtain ⟨t, ht, hcid⟩ := commitFrom_sales failAt none (a :: l) 0 s
    refine ⟨t, ?_, hcid⟩
    have h1 : (posCartSection failAt rstep s (a :: l) none).1 =
        commitLoop failAt none s (a :: l) := by
      cases rstep <;> rfl
    rw [h1]
    exact ht

theorem listPop_oob (cart : List CartItem) :
    ∀ idx, cart.length ≤ idx → listPop cart idx = .error "pop index out of range" := by
  induction cart with
  | nil => intro idx _; rfl
  | cons a rest ih =>
    intro idx h
    cases idx with
    | zero => simp at h
    | succ n =>
      have h1 : rest.length ≤ n := by simpa using h
      simp [listPop, ih n h1]

/-- C9: for every cart and every index greater than or equal to the cart's
length, the remove handler's `pop` raises the out-of-range `IndexError` and
the session cart is returned exactly as it was — no line removed or
modified. -/
theorem c9_remove_out_of_range (cart : List CartItem) (idx : Nat) (h : cart.length ≤ idx) :
    removeHandler cart idx = (cart, some "pop index out of range") := by
  simp [removeHandler, listPop_oob cart idx h]

/-- C9, witness: removing index 5 from a one-line cart leaves the cart
unchanged and reports the out-of-range error. -/
theorem c9_remove_out_of_range_applied :
    removeHandler [⟨1, "Watch", 100, 2, 200⟩] 5 =
      ([⟨1, "Watch", 100, 2, 200⟩], some "pop index out of range") :=
  c9_remove_out_of_range [⟨1, "Watch", 100, 2, 200⟩] 5 (by decide)

/-- C10: receipt rendering is total in the line quantities.  For every item
line of an items list, its rendered rate is in the rate list; when the
quantity is positive the rate is `amount / quantity` with a provably non-zero
divisor, and when the quantity is not positive (in particular zero) the rate
falls back to the amount itself, so no division by zero is ever performed. -/
theorem c10_rate_no_division_by_zero (items : List (String × ℤ × ℚ)) (nm : String)
    (q : ℤ) (a : ℚ) (h : (nm, q, a) ∈ items) :
    lineRate a q ∈ receiptLineRates items ∧
    (0 < q → (q : ℚ) ≠ 0 ∧ lineRate a q = a / (q : ℚ)) ∧
    (q ≤ 0 → lineRate a q = a) := by
  refine ⟨List.mem_map.mpr ⟨(nm, q, a), h, rfl⟩, ?_, ?_⟩
  · intro hq
    refine ⟨?_, by rw [lineRate, if_pos hq]⟩
    exact_mod_cast (by omega : q ≠ 0)
  · intro hq
    rw [lineRate, if_neg (by omega)]

/-- C10, witness: the theorem applied to a line of quantity 2 and amount 500
(rate 250) and, through the non-positive branch, to quantity 0. -/
theorem c10_rate_no_division_by_zero_applied :
    lineRate 500 2 ∈ receiptLineRates [("Watch", 2, 500), ("Strap", 0, 40)] ∧
    ((2 : ℤ) : ℚ) ≠ 0 ∧ lineRate 500 2 = 500 / ((2 : ℤ) : ℚ) ∧
    lineRate 40 0 = 40 := by
  have h1 := c10_rate_no_division_by_zero [("Watch", 2, 500), ("Strap", 0, 40)]
    "Watch" 2 500 (by norm_num)
  have h2 := c10_rate_no_division_by_zero [("Watch", 2, 500), ("Strap", 0, 40)]
    "Strap" 0 40 (by norm_num)
  exact ⟨h1.1, (h1.2.1 (by decide)).1, (h1.2.1 (by decide)).2, h2.2.2 (by decide)⟩

end ShopPos
